import Mathlib

/-!
# Verification of the makerlab serial-to-MIDI bridge

Shallow embedding of the core of `src/bridge.py` (protocol decoder,
per-device state machine, deadband filter, MIDI emission decisions) and of
the standalone classifier in `src/regex.py`.

Modelling conventions, justified against the source:

* Lines and tokens are `List Char`.  Every message regex in the source is
  anchored (`^...$`) and is a comma-separated alternation of fields whose
  character classes (`\d`, `[01]`, `[+-]`, `[#b]`, `[A-Ga-g]`, `[0-7]`,
  parameter literals) never contain `','`.  Hence a line matches a pattern
  iff splitting the line at every `','` yields exactly the pattern's field
  list, with each field matching its (anchored) field pattern.  The
  matchers below therefore work on the comma-split token list.
* Python's `\d` and `int()` also accept non-ASCII Unicode digits, and
  `int()` tolerates surrounding whitespace, a leading `+`, and underscore
  digit separators.  The wire protocol is ASCII with no spaces (spec §6)
  and the grammar never produces such tokens, so the model restricts to
  ASCII digits and models `int()` on an optional sign followed by ASCII
  digits.
* Python's `$` would also match just before a final newline; the bridge
  strips each line (`reader_thread`) before dispatch, so the model anchors
  at the true end of the string for both the bridge and the classifier
  (they compile textually identical patterns).
* Greedy, non-backtracking field matching is used where the source regex
  could in principle backtrack; in each such place (`[#b]?` before
  `-?\d+`, `-?` before `\d+`, ordered alternations whose branches are
  never prefixes of one another, `\d+`/`\d{1,2}` running to an anchor)
  greedy matching accepts exactly the same strings, because the character
  that would be given back can never start the remainder of the pattern.
* MIDI emission (`midi_note_on` / `midi_note_off` / `midi_cc`) is
  modelled as returning an output action carrying the clamped values the
  source would pass to the device.
-/

namespace Makerlab

/-! ## Configuration constants (bridge.py lines 12-23) -/

def DEADBAND_CC : Nat := 2

def OCT_MIN : Int := -24

def OCT_MAX : Int := 36

def DEFAULT_VELOCITY : Nat := 96

/-- `CC_MAP` (bridge.py lines 15-22): effect name to controller number.
Keys are the raw parameter tokens. -/
def CC_MAP (p : List Char) : Option Nat :=
  if p = "CUT".data then some 74
  else if p = "RESO".data then some 71
  else if p = "PAN".data then some 10
  else if p = "REV".data then some 91
  else if p = "DEL".data then some 94
  else if p = "MOD".data then some 1
  else none

/-! ## Character classes (ASCII, via code points) -/

/-- ASCII `\d`, i.e. `'0'..'9'` (code points 48..57). -/
def digitCh (c : Char) : Bool := 48 ≤ c.toNat && c.toNat ≤ 57

/-- The class `[A-Ga-g]` (code points 65..71 and 97..103). -/
def noteLetterCh (c : Char) : Bool :=
  (65 ≤ c.toNat && c.toNat ≤ 71) || (97 ≤ c.toNat && c.toNat ≤ 103)

/-- Numeric value of a digit string, as computed by Python `int()` on a
digit-only token. -/
def digitsVal (cs : List Char) : Nat :=
  cs.foldl (fun a c => 10 * a + (c.toNat - 48)) 0

/-! ## Anchored field patterns of the message grammar
(`bridge.py` lines 28-41 = `regex.py` lines 27-41, textually identical) -/

/-- `\d+` (anchored): nonempty, all digits. -/
def isDigits1 (cs : List Char) : Bool := !cs.isEmpty && cs.all digitCh

/-- `\d{1,2}` (anchored). -/
def isDigits12 (cs : List Char) : Bool :=
  (cs.length = 1 || cs.length = 2) && cs.all digitCh

/-- `NUM_0_127 = (?:12[0-7]|1[01]\d|\d{1,2})` (anchored; the ordered
alternation equals the union since each branch is checked against the
whole token). -/
def isNum127 (cs : List Char) : Bool :=
  (match cs with
   | [a, b, c] => a = '1' && b = '2' && (48 ≤ c.toNat && c.toNat ≤ 55)
   | _ => false)
  || (match cs with
      | [a, b, c] => a = '1' && (b = '0' || b = '1') && digitCh c
      | _ => false)
  || isDigits12 cs

/-- `-?\d+` (anchored). -/
def isSignDigits (cs : List Char) : Bool :=
  match cs with
  | [] => false
  | c :: rest => if c = '-' then isDigits1 rest else isDigits1 (c :: rest)

/-- `[#b]?-?\d+` (anchored): greedy accidental is safe because neither
`-` nor a digit is `#`/`b`. -/
def isAccOct (cs : List Char) : Bool :=
  match cs with
  | [] => false
  | c :: rest =>
    if c = '#' then isSignDigits rest
    else if c = 'b' then isSignDigits rest
    else isSignDigits (c :: rest)

/-- `NOTE_NAME = [A-Ga-g][#b]?-?\d+` (anchored). -/
def isNoteName (cs : List Char) : Bool :=
  match cs with
  | c :: rest => noteLetterCh c && isAccOct rest
  | [] => false

/-- `NOTE_ANY` token: `NOTE_NAME` or `NUM_0_127` (anchored alternation). -/
def isNoteTok (cs : List Char) : Bool := isNoteName cs || isNum127 cs

/-- `DEV = \d{1,3}` (anchored). -/
def isDevTok (cs : List Char) : Bool :=
  (decide (1 ≤ cs.length) && decide (cs.length ≤ 3)) && cs.all digitCh

/-- `[01]` (anchored, one char). -/
def isBitTok (cs : List Char) : Bool := cs = ['0'] || cs = ['1']

/-- `[+-]?\d{1,2}` (anchored), the OCT delta field. -/
def isDeltaTok (cs : List Char) : Bool :=
  match cs with
  | [] => false
  | c :: rest =>
    if c = '+' ∨ c = '-' then isDigits12 rest else isDigits12 (c :: rest)

/-- Python `int()` on a `[+-]?\d{1,2}` token (OCT delta). -/
def deltaVal (cs : List Char) : Int :=
  match cs with
  | [] => 0
  | c :: rest =>
    if c = '+' then (digitsVal rest : Int)
    else if c = '-' then -(digitsVal rest : Int)
    else (digitsVal (c :: rest) : Int)

/-! ## Note Name Resolver (`note_name_to_number`, bridge.py lines 77-91) -/

/-- `NOTE_BASE` (bridge.py line 77).  Total with default 0; in the source a
missing key would raise, which is unreachable because the resolver only
looks up the upper-cased letter captured by `[A-Ga-g]`. -/
def NOTE_BASE (c : Char) : Int :=
  if c = 'C' then 0
  else if c = 'D' then 2
  else if c = 'E' then 4
  else if c = 'F' then 5
  else if c = 'G' then 7
  else if c = 'A' then 9
  else if c = 'B' then 11
  else 0

/-- `\d+` capture plus `int()`: the octave digits of a note name. -/
def parseDigits (cs : List Char) : Option Nat :=
  if !cs.isEmpty && cs.all digitCh then some (digitsVal cs) else none

/-- `-?\d+` capture plus `int()`. -/
def parseSignedInt (cs : List Char) : Option Int :=
  match cs with
  | [] => none
  | c :: rest =>
    if c = '-' then (parseDigits rest).map (fun n => -(n : Int))
    else (parseDigits (c :: rest)).map (fun n => (n : Int))

/-- The `([#b]?)(-?\d+)` tail of the resolver's fullmatch: accidental
group and octave integer. -/
def parseAccOct (cs : List Char) : Option (Option Char × Int) :=
  match cs with
  | [] => none
  | c :: rest =>
    if c = '#' then (parseSignedInt rest).map (fun o => (some '#', o))
    else if c = 'b' then (parseSignedInt rest).map (fun o => (some 'b', o))
    else (parseSignedInt (c :: rest)).map (fun o => (none, o))

/-- `re.fullmatch(r'([A-Ga-g])([#b]?)(-?\d+)', name)`: letter, accidental
group, octave integer. -/
def parseNoteName (cs : List Char) : Option (Char × Option Char × Int) :=
  match cs with
  | c :: rest =>
    if noteLetterCh c then
      match parseAccOct rest with
      | some (a, o) => some (c, a, o)
      | none => none
    else none
  | [] => none

/-- Python `int(name)` restricted to ASCII: optional sign, then digits. -/
def pyInt (cs : List Char) : Option Int :=
  match cs with
  | [] => none
  | c :: rest =>
    if c = '-' then (parseDigits rest).map (fun n => -(n : Int))
    else if c = '+' then (parseDigits rest).map (fun n => (n : Int))
    else (parseDigits (c :: rest)).map (fun n => (n : Int))

/-- `max(0, min(127, n))` followed by the (nonnegative) result as a Nat. -/
def clamp0_127 (n : Int) : Nat := (max 0 (min 127 n)).toNat

/-- The resolver without its defensive default: `some` on the name branch
or the integer branch, `none` exactly when the source would fall through
to `return 60`.  The accidental adjustment mirrors lines 84-85. -/
def noteResolveOpt (cs : List Char) : Option Nat :=
  match parseNoteName cs with
  | some (letter, acc, octv) =>
    let pc : Int :=
      NOTE_BASE letter.toUpper +
        (if acc = some '#' then 1 else if acc = some 'b' then -1 else 0)
    some (clamp0_127 (12 * (octv + 1) + pc))
  | none => (pyInt cs).map clamp0_127

/-- `note_name_to_number` (bridge.py lines 78-91): resolver with the
defensive `return 60` fallback. -/
def note_name_to_number (cs : List Char) : Nat :=
  (noteResolveOpt cs).getD 60

/-- `clamp` (bridge.py line 93). -/
def clamp (v lo hi : Int) : Int := if v < lo then lo else if v > hi then hi else v

/-! ## Output actions (the MIDI sink boundary, bridge.py lines 61-72) -/

/-- One output action handed to the MIDI sink, carrying the values after
the source's clamps. -/
inductive Out where
  | noteOn (note vel : Nat)
  | noteOff (note : Nat)
  | cc (ccId val : Nat)
deriving DecidableEq

/-- `midi_note_on`: clamps velocity to 1..127 and note to 0..127 (the
`max 0` of the source is the identity on `Nat`). -/
def midi_note_on (note vel : Nat) : Out :=
  Out.noteOn (min 127 note) (max 1 (min 127 vel))

/-- `midi_note_off`: clamps the note to 0..127. -/
def midi_note_off (note : Nat) : Out := Out.noteOff (min 127 note)

/-- `midi_cc`: masks the controller id to 7 bits and clamps the value. -/
def midi_cc (ccId val : Nat) : Out := Out.cc (ccId % 128) (min 127 val)

/-! ## Per-device state (`DevState`, bridge.py lines 98-113) -/

/-- Association-list lookup, modelling Python `dict.get`. -/
def dictGet {α : Type} (l : List (Nat × α)) (k : Nat) : Option α :=
  match l with
  | [] => none
  | (k1, v) :: rest => if k1 = k then some v else dictGet rest k

/-- Association-list update, modelling Python `dict.__setitem__`: one
binding per key. -/
def dictSet {α : Type} (l : List (Nat × α)) (k : Nat) (v : α) : List (Nat × α) :=
  match l with
  | [] => [(k, v)]
  | (k1, v1) :: rest => if k1 = k then (k, v) :: rest else (k1, v1) :: dictSet rest k v

/-- The per-device state of `class DevState` (bridge.py lines 98-107),
with its `__init__` values as defaults.  Note fields hold already-clamped
pitches; `last_cc_vals` is the deadband table. -/
structure DevState where
  note_hold : Nat := 0
  vol_hold : Nat := 0
  sustain_on : Nat := 0
  octave_offset : Int := 0
  last_volume : Nat := DEFAULT_VELOCITY
  current_note : Option Nat := none
  sustained_note : Option Nat := none
  last_cc_vals : List (Nat × Nat) := []
deriving DecidableEq

/-- The state a fresh device gets on lazy creation. -/
def initState : DevState := {}

/-- `DevState.cc_send` (bridge.py lines 109-113): the deadband filter.
Emits and records the candidate iff no prior value is stored or the
candidate is at least `DEADBAND_CC` away from it. -/
def DevState.cc_send (st : DevState) (ccId val : Nat) : DevState × List Out :=
  match dictGet st.last_cc_vals ccId with
  | none =>
    ({ st with last_cc_vals := dictSet st.last_cc_vals ccId val }, [midi_cc ccId val])
  | some prev =>
    if DEADBAND_CC ≤ ((val : Int) - (prev : Int)).natAbs then
      ({ st with last_cc_vals := dictSet st.last_cc_vals ccId val }, [midi_cc ccId val])
    else (st, [])

/-! ## Event-level transitions (the branches of the handlers,
bridge.py lines 126-231, one definition per source branch) -/

/-- The `RE_B_NH` branch of `handle_button` (lines 132-141). -/
def but_nh (st : DevState) (state : Nat) : DevState × List Out :=
  let prev := st.note_hold
  let st1 := { st with note_hold := state }
  if prev = 1 ∧ state = 0 ∧ st1.sustain_on = 0 then
    match st1.current_note with
    | some n => ({ st1 with current_note := none }, [midi_note_off n])
    | none => (st1, [])
  else (st1, [])

/-- The `RE_B_VH` branch of `handle_button` (lines 143-146). -/
def but_vh (st : DevState) (state : Nat) : DevState × List Out :=
  ({ st with vol_hold := state }, [])

/-- The `RE_B_SUS` branch of `handle_button` (lines 148-161).  On
`state = 1` the source copies `current_note` into `sustained_note`
without clearing `current_note`. -/
def but_sus (st : DevState) (state : Nat) : DevState × List Out :=
  if state = 1 then
    let st1 := { st with sustain_on := 1 }
    match st1.current_note with
    | some n => ({ st1 with sustained_note := some n }, [])
    | none => (st1, [])
  else
    let st1 := { st with sustain_on := 0 }
    match st1.sustained_note with
    | some n => ({ st1 with sustained_note := none }, [midi_note_off n])
    | none => (st1, [])

/-- The `RE_B_OCT` branch of `handle_button` (lines 163-166). -/
def but_oct (st : DevState) (delta : Int) : DevState × List Out :=
  ({ st with octave_offset := clamp (st.octave_offset + 12 * delta) OCT_MIN OCT_MAX }, [])

/-- The `RE_B_PAN` branch of `handle_button` (lines 168-174). -/
def but_panic (st : DevState) : DevState × List Out :=
  let st1 := { st with sustain_on := 0 }
  match st1.sustained_note with
  | some n => ({ st1 with sustained_note := none }, [midi_note_off n])
  | none => (st1, [])

/-- The body of `handle_pitch` after the match (lines 181-207).  In the
sustain branch the source sets `current_note = None` whether or not the
pitch changed (line 195 sits outside the inner `if`). -/
def pitch_ev (st : DevState) (tok : List Char) : DevState × List Out :=
  let note0 := note_name_to_number tok
  let note := (clamp ((note0 : Int) + st.octave_offset) 0 127).toNat
  if st.note_hold = 1 then
    if st.sustain_on ≠ 0 then
      if st.sustained_note ≠ some note then
        ({ st with sustained_note := some note, current_note := none },
          (match st.sustained_note with
           | some old => [midi_note_off old]
           | none => []) ++ [midi_note_on note st.last_volume])
      else ({ st with current_note := none }, [])
    else
      if st.current_note ≠ some note then
        ({ st with current_note := some note },
          (match st.current_note with
           | some old => [midi_note_off old]
           | none => []) ++ [midi_note_on note st.last_volume])
      else (st, [])
  else (st, [])

/-- The body of `handle_volume` after the match (lines 212-219). -/
def vol_ev (st : DevState) (val : Nat) : DevState × List Out :=
  let st1 := { st with last_volume := val }
  if st1.vol_hold = 1 then st1.cc_send 11 val else (st1, [])

/-- The body of `handle_effect` after the match (lines 224-231). -/
def eff_ev (st : DevState) (param : List Char) (val : Nat) : DevState × List Out :=
  if st.vol_hold = 1 then
    match CC_MAP param with
    | some ccId => st.cc_send ccId val
    | none => (st, [])
  else (st, [])

/-! ## Parsed events and per-device runs -/

/-- A parsed event for one device, as the handlers see it. -/
inductive Ev where
  | nh (state : Nat)
  | vh (state : Nat)
  | sus (state : Nat)
  | oct (delta : Int)
  | pan
  | pitch (tok : List Char)
  | vol (val : Nat)
  | eff (param : List Char) (val : Nat)

/-- One event-level transition of a device's state machine. -/
def step (st : DevState) (e : Ev) : DevState × List Out :=
  match e with
  | Ev.nh s => but_nh st s
  | Ev.vh s => but_vh st s
  | Ev.sus s => but_sus st s
  | Ev.oct d => but_oct st d
  | Ev.pan => but_panic st
  | Ev.pitch t => pitch_ev st t
  | Ev.vol v => vol_ev st v
  | Ev.eff p v => eff_ev st p v

/-- The state after a sequence of events. -/
def run (st : DevState) : List Ev → DevState
  | [] => st
  | e :: es => run (step st e).1 es

/-! ## Line-level matchers (the eight compiled patterns) -/

/-- Split a line at every comma (see the header note for why this is an
exact model of the comma-structured anchored patterns). -/
def splitCommas : List Char → List (List Char)
  | [] => [[]]
  | c :: rest =>
    if c = ',' then [] :: splitCommas rest
    else
      match splitCommas rest with
      | t :: ts => (c :: t) :: ts
      | [] => [[c]]

/-- `RE_B_NH`: on match, the `dev` and `state` groups through `int()`. -/
def m_B_NH (toks : List (List Char)) : Option (Nat × Nat) :=
  match toks with
  | [t, d, tag, s] =>
    if t = "B".data ∧ tag = "NH".data ∧ isDevTok d ∧ isBitTok s then
      some (digitsVal d, digitsVal s)
    else none
  | _ => none

/-- `RE_B_VH`. -/
def m_B_VH (toks : List (List Char)) : Option (Nat × Nat) :=
  match toks with
  | [t, d, tag, s] =>
    if t = "B".data ∧ tag = "VH".data ∧ isDevTok d ∧ isBitTok s then
      some (digitsVal d, digitsVal s)
    else none
  | _ => none

/-- `RE_B_SUS`. -/
def m_B_SUS (toks : List (List Char)) : Option (Nat × Nat) :=
  match toks with
  | [t, d, tag, s] =>
    if t = "B".data ∧ tag = "SUS".data ∧ isDevTok d ∧ isBitTok s then
      some (digitsVal d, digitsVal s)
    else none
  | _ => none

/-- `RE_B_OCT`: delta through `int()` (sign-aware). -/
def m_B_OCT (toks : List (List Char)) : Option (Nat × Int) :=
  match toks with
  | [t, d, tag, ds] =>
    if t = "B".data ∧ tag = "OCT".data ∧ isDevTok d ∧ isDeltaTok ds then
      some (digitsVal d, deltaVal ds)
    else none
  | _ => none

/-- `RE_B_PAN` (the literal trailing field is `1`). -/
def m_B_PAN (toks : List (List Char)) : Option Nat :=
  match toks with
  | [t, d, tag, one] =>
    if t = "B".data ∧ tag = "PANIC".data ∧ one = "1".data ∧ isDevTok d then
      some (digitsVal d)
    else none
  | _ => none

/-- `RE_P`: the note group is kept as the raw token (the source passes
`m.group('note')` to the resolver). -/
def m_P (toks : List (List Char)) : Option (Nat × List Char) :=
  match toks with
  | [t, d, n] =>
    if t = "P".data ∧ isDevTok d ∧ isNoteTok n then some (digitsVal d, n) else none
  | _ => none

/-- `RE_V`. -/
def m_V (toks : List (List Char)) : Option (Nat × Nat) :=
  match toks with
  | [t, d, v] =>
    if t = "V".data ∧ isDevTok d ∧ isNum127 v then some (digitsVal d, digitsVal v)
    else none
  | _ => none

/-- `RE_E`: the param alternation `CUT|RESO|REV|DEL|MOD|PAN` (no branch a
prefix of another, so ordered matching is plain membership). -/
def isParamTok (p : List Char) : Bool :=
  p = "CUT".data || p = "RESO".data || p = "REV".data || p = "DEL".data ||
    p = "MOD".data || p = "PAN".data

/-- `RE_E`. -/
def m_E (toks : List (List Char)) : Option (Nat × List Char × Nat) :=
  match toks with
  | [t, d, p, v] =>
    if t = "E".data ∧ isParamTok p ∧ isDevTok d ∧ isNum127 v then
      some (digitsVal d, p, digitsVal v)
    else none
  | _ => none

/-! ## The device registry and the line handlers
(`DEVICES`/`S`, bridge.py lines 115-121; handlers 126-231) -/

/-- The global `DEVICES` dict: device id to state. -/
abbrev Devices := List (Nat × DevState)

/-- `S(dev)` (bridge.py lines 116-121): the device's state, a fresh
`DevState` if the id is new. -/
def S (g : Devices) (dev : Nat) : DevState :=
  match dictGet g dev with
  | some st => st
  | none => initState

/-- Store back a device's state (the effect of Python's in-place mutation
of the object held in `DEVICES`, including the lazy insert in `S`). -/
def setS (g : Devices) (dev : Nat) (st : DevState) : Devices := dictSet g dev st

/-- `handle_button` (bridge.py lines 126-176): `none` when no button
pattern matches (the source returns `False`), otherwise the updated
registry and emitted actions.  The source picks the first of the five
patterns that matches, both for the groups and for the branch. -/
def handle_button (g : Devices) (l : List Char) : Option (Devices × List Out) :=
  let toks := splitCommas l
  match m_B_NH toks with
  | some (dev, s) =>
    let r := but_nh (S g dev) s
    some (setS g dev r.1, r.2)
  | none =>
  match m_B_VH toks with
  | some (dev, s) =>
    let r := but_vh (S g dev) s
    some (setS g dev r.1, r.2)
  | none =>
  match m_B_SUS toks with
  | some (dev, s) =>
    let r := but_sus (S g dev) s
    some (setS g dev r.1, r.2)
  | none =>
  match m_B_OCT toks with
  | some (dev, d) =>
    let r := but_oct (S g dev) d
    some (setS g dev r.1, r.2)
  | none =>
  match m_B_PAN toks with
  | some dev =>
    let r := but_panic (S g dev)
    some (setS g dev r.1, r.2)
  | none => none

/-- `handle_pitch` (bridge.py lines 178-207). -/
def handle_pitch (g : Devices) (l : List Char) : Option (Devices × List Out) :=
  match m_P (splitCommas l) with
  | some (dev, tok) =>
    let r := pitch_ev (S g dev) tok
    some (setS g dev r.1, r.2)
  | none => none

/-- `handle_volume` (bridge.py lines 209-219). -/
def handle_volume (g : Devices) (l : List Char) : Option (Devices × List Out) :=
  match m_V (splitCommas l) with
  | some (dev, v) =>
    let r := vol_ev (S g dev) v
    some (setS g dev r.1, r.2)
  | none => none

/-- `handle_effect` (bridge.py lines 221-231). -/
def handle_effect (g : Devices) (l : List Char) : Option (Devices × List Out) :=
  match m_E (splitCommas l) with
  | some (dev, p, v) =>
    let r := eff_ev (S g dev) p v
    some (setS g dev r.1, r.2)
  | none => none

/-- The dispatch of `reader_thread` (bridge.py lines 260-264): try the
four handlers in order; an unmatched line is skipped with no effect. -/
def process_line (g : Devices) (l : List Char) : Devices × List Out :=
  match handle_button g l with
  | some r => r
  | none =>
  match handle_pitch g l with
  | some r => r
  | none =>
  match handle_volume g l with
  | some r => r
  | none =>
  match handle_effect g l with
  | some r => r
  | none => (g, [])

/-- Process a list of lines, collecting all emitted actions in order. -/
def process_lines (g : Devices) : List (List Char) → Devices × List Out
  | [] => (g, [])
  | l :: rest =>
    let r := process_line g l
    let r2 := process_lines r.1 rest
    (r2.1, r.2 ++ r2.2)

/-! ## The standalone classifier (`src/regex.py`) -/

/-- The eight message kinds, in the order of `ALL` (regex.py lines 43-52). -/
inductive Kind where
  | B_NH | B_VH | B_SUS | B_OCT | B_PAN | P | V | E
deriving DecidableEq

/-- `classify` (regex.py lines 54-60): first pattern of `ALL` that
matches, else no kind.  (The source also returns the group dict; the
kind alone settles the refinement claim.) -/
def classify (l : List Char) : Option Kind :=
  let toks := splitCommas l
  if (m_B_NH toks).isSome then some Kind.B_NH
  else if (m_B_VH toks).isSome then some Kind.B_VH
  else if (m_B_SUS toks).isSome then some Kind.B_SUS
  else if (m_B_OCT toks).isSome then some Kind.B_OCT
  else if (m_B_PAN toks).isSome then some Kind.B_PAN
  else if (m_P toks).isSome then some Kind.P
  else if (m_V toks).isSome then some Kind.V
  else if (m_E toks).isSome then some Kind.E
  else none

/-- The handler of the bridge's dispatch that corresponds to a kind. -/
def handlerOf (k : Kind) : Devices → List Char → Option (Devices × List Out) :=
  match k with
  | Kind.B_NH | Kind.B_VH | Kind.B_SUS | Kind.B_OCT | Kind.B_PAN => handle_button
  | Kind.P => handle_pitch
  | Kind.V => handle_volume
  | Kind.E => handle_effect

/-- Whether the pattern of a given kind matches a token list (the
membership test behind both `classify` and the dispatch). -/
def kindMatcher (k : Kind) (toks : List (List Char)) : Bool :=
  match k with
  | Kind.B_NH => (m_B_NH toks).isSome
  | Kind.B_VH => (m_B_VH toks).isSome
  | Kind.B_SUS => (m_B_SUS toks).isSome
  | Kind.B_OCT => (m_B_OCT toks).isSome
  | Kind.B_PAN => (m_B_PAN toks).isSome
  | Kind.P => (m_P toks).isSome
  | Kind.V => (m_V toks).isSome
  | Kind.E => (m_E toks).isSome


/-! # Theorems -/

/-! ## Small structural lemmas -/

theorem clamp_mem (v lo hi : Int) (h : lo ≤ hi) : lo ≤ clamp v lo hi ∧ clamp v lo hi ≤ hi := by
  unfold clamp
  split_ifs <;> omega

theorem dictGet_dictSet_self {α : Type} (l : List (Nat × α)) (k : Nat) (v : α) :
    dictGet (dictSet l k v) k = some v := by
  induction l with
  | nil => simp [dictGet, dictSet]
  | cons hd tl ih =>
    obtain ⟨k1, v1⟩ := hd
    by_cases hk : k1 = k
    · subst hk
      simp [dictGet, dictSet]
    · simp [dictGet, dictSet, hk, ih]

/-- The deadband filter touches only the controller table. -/
theorem cc_send_frame (st : DevState) (c v : Nat) :
    ∃ t, (st.cc_send c v).1 = { st with last_cc_vals := t } := by
  unfold DevState.cc_send
  cases hprev : dictGet st.last_cc_vals c with
  | none => exact ⟨_, rfl⟩
  | some prev =>
    by_cases hd : DEADBAND_CC ≤ ((v : Int) - (prev : Int)).natAbs
    · simp only [hd, if_true]
      exact ⟨_, rfl⟩
    · simp only [hd, if_false]
      exact ⟨st.last_cc_vals, rfl⟩

theorem octave_offset_cc_send (st : DevState) (c v : Nat) :
    ((st.cc_send c v).1).octave_offset = st.octave_offset := by
  obtain ⟨t, ht⟩ := cc_send_frame st c v
  rw [ht]

/-! ## Octave bounds invariant -/

theorem octave_inBounds_step (st : DevState) (e : Ev)
    (h1 : OCT_MIN ≤ st.octave_offset) (h2 : st.octave_offset ≤ OCT_MAX) :
    OCT_MIN ≤ (step st e).1.octave_offset ∧ (step st e).1.octave_offset ≤ OCT_MAX := by
  cases e with
  | nh s =>
    simp only [step, but_nh]
    split_ifs
    · split <;> exact ⟨h1, h2⟩
    · exact ⟨h1, h2⟩
  | vh s => exact ⟨h1, h2⟩
  | sus s =>
    simp only [step, but_sus]
    split_ifs
    · split <;> exact ⟨h1, h2⟩
    · split <;> exact ⟨h1, h2⟩
  | oct d =>
    simp only [step, but_oct]
    exact clamp_mem _ _ _ (by norm_num [OCT_MIN, OCT_MAX])
  | pan =>
    simp only [step, but_panic]
    split <;> exact ⟨h1, h2⟩
  | pitch t =>
    simp only [step, pitch_ev]
    split_ifs <;> exact ⟨h1, h2⟩
  | vol v =>
    simp only [step, vol_ev]
    split_ifs with h
    · rw [octave_offset_cc_send]
      exact ⟨h1, h2⟩
    · exact ⟨h1, h2⟩
  | eff p v =>
    simp only [step, eff_ev]
    split_ifs with h
    · cases hc : CC_MAP p
      · simp only [hc]
        exact ⟨h1, h2⟩
      · simp only [hc]
        rw [octave_offset_cc_send]
        exact ⟨h1, h2⟩
    · exact ⟨h1, h2⟩

theorem octave_inBounds_run (evs : List Ev) (st : DevState)
    (h1 : OCT_MIN ≤ st.octave_offset) (h2 : st.octave_offset ≤ OCT_MAX) :
    OCT_MIN ≤ (run st evs).octave_offset ∧ (run st evs).octave_offset ≤ OCT_MAX := by
  induction evs generalizing st with
  | nil => exact ⟨h1, h2⟩
  | cons e es ih =>
    obtain ⟨g1, g2⟩ := octave_inBounds_step st e h1 h2
    exact ih (step st e).1 g1 g2

/-! ## Claim theorems -/

/-- Claim C1 (code bug evidence): the at-most-one-active-voice invariant
fails on the code.  Processing `B,1,NH,1` then `P,1,C4` then `B,1,SUS,1`
from the initial state leaves both `currentNote` and `sustainedNote`
non-empty (both 60), because the SUS=1 branch copies `current_note` into
`sustained_note` without clearing it. -/
theorem C1_both_voices_set_after_promotion :
    (S (process_lines [] ["B,1,NH,1".data, "P,1,C4".data, "B,1,SUS,1".data]).1 1).current_note
      = some 60 ∧
    (S (process_lines [] ["B,1,NH,1".data, "P,1,C4".data, "B,1,SUS,1".data]).1 1).sustained_note
      = some 60 := by
  exact ⟨by decide, by decide⟩

/-- Claim C2 (code bug evidence): SustainToggle to 1 with an active
`currentNote` sets `sustainOn` and copies the pitch to `sustainedNote`
with no emission, but does NOT clear `currentNote` as the claim states.
Downstream consequence: in the seven-line trace the final `P,1,C4` (with
`currentNote` stale at 60 and nothing sounding) emits no NoteOn, so the
whole trace produces only the initial NoteOn(60) and one NoteOff(60). -/
theorem C2_sustain_promotion_does_not_clear :
    (process_line (process_lines [] ["B,1,NH,1".data, "P,1,C4".data]).1 "B,1,SUS,1".data).2
      = [] ∧
    (S (process_line (process_lines [] ["B,1,NH,1".data, "P,1,C4".data]).1
        "B,1,SUS,1".data).1 1).sustain_on = 1 ∧
    (S (process_line (process_lines [] ["B,1,NH,1".data, "P,1,C4".data]).1
        "B,1,SUS,1".data).1 1).sustained_note = some 60 ∧
    (S (process_line (process_lines [] ["B,1,NH,1".data, "P,1,C4".data]).1
        "B,1,SUS,1".data).1 1).current_note = some 60 ∧
    (process_lines [] ["B,1,NH,1".data, "P,1,C4".data, "B,1,SUS,1".data, "B,1,NH,0".data,
        "B,1,SUS,0".data, "B,1,NH,1".data, "P,1,C4".data]).2
      = [Out.noteOn 60 DEFAULT_VELOCITY, Out.noteOff 60] := by
  refine ⟨by decide, by decide, by decide, by decide, by decide⟩

/-- Claim C3: Scenario 1.  From a fresh device, `B,1,NH,1` then `P,1,C4`
then `P,1,C4` then `B,1,NH,0` emits exactly NoteOn(60, default velocity)
then NoteOff(60), and the second identical Pitch line emits nothing and
changes no state. -/
theorem C3_scenario1 :
    (process_lines [] ["B,1,NH,1".data, "P,1,C4".data, "P,1,C4".data, "B,1,NH,0".data]).2
      = [Out.noteOn 60 DEFAULT_VELOCITY, Out.noteOff 60] ∧
    process_line (process_lines [] ["B,1,NH,1".data, "P,1,C4".data]).1 "P,1,C4".data
      = ((process_lines [] ["B,1,NH,1".data, "P,1,C4".data]).1, []) := by
  exact ⟨by decide, by decide⟩

/-- Claim C6: Panic forces `sustainOn` to 0; if `sustainedNote` is
non-empty it emits NoteOff for it exactly once and clears it; every other
field of the device state (noteHold, volumeHold, currentNote, octave
offset, lastVolume, controller table) is unchanged, regardless of the
prior `sustainOn` value. -/
theorem C6_panic_frame (st : DevState) :
    (but_panic st).1 = { st with sustain_on := 0, sustained_note := none } ∧
    (but_panic st).2 = (match st.sustained_note with
      | some n => [midi_note_off n]
      | none => []) := by
  obtain ⟨nh, vh, so, oo, lv, cn, sn, lcc⟩ := st
  cases sn <;> simp [but_panic]

/-- Claim C7: the octave offset stays within the configured bounds
(−24..+36) after any event sequence from the initial state; each
OctaveStep adds `12*delta` with a saturating clamp; and (Scenario 4)
`B,1,OCT,+1` then `B,1,NH,1` then `P,1,60` emits NoteOn at pitch 72. -/
theorem C7_octave_bounds (evs : List Ev) (st : DevState) (d : Int) :
    (OCT_MIN ≤ (run initState evs).octave_offset ∧
      (run initState evs).octave_offset ≤ OCT_MAX) ∧
    but_oct st d
      = ({ st with octave_offset := clamp (st.octave_offset + 12 * d) OCT_MIN OCT_MAX }, []) ∧
    (process_lines [] ["B,1,OCT,+1".data, "B,1,NH,1".data, "P,1,60".data]).2
      = [Out.noteOn 72 DEFAULT_VELOCITY] := by
  exact ⟨octave_inBounds_run evs initState (by decide) (by decide), rfl, by decide⟩

/-- Claim C4: the deadband filter emits a controller-change iff no prior
value is stored for the id or the candidate is at least the threshold
away from it; on emission it stores the candidate itself; a suppressed
call changes nothing; and both the Volume-as-expression path (id 11) and
the Effect path go through this same filter on the same per-device
table. -/
theorem C4_deadband (st : DevState) (ccId val : Nat) (p : List Char) (ccx : Nat) :
    ((st.cc_send ccId val).2 ≠ [] ↔
      dictGet st.last_cc_vals ccId = none ∨
        ∃ prev, dictGet st.last_cc_vals ccId = some prev ∧
          DEADBAND_CC ≤ ((val : Int) - (prev : Int)).natAbs) ∧
    ((st.cc_send ccId val).2 ≠ [] →
      (st.cc_send ccId val).2 = [midi_cc ccId val] ∧
        dictGet (st.cc_send ccId val).1.last_cc_vals ccId = some val) ∧
    ((st.cc_send ccId val).2 = [] → (st.cc_send ccId val).1 = st) ∧
    (st.vol_hold = 1 →
      vol_ev st val = DevState.cc_send { st with last_volume := val } 11 val) ∧
    (st.vol_hold = 1 → CC_MAP p = some ccx → eff_ev st p val = st.cc_send ccx val) := by
  refine ⟨?_, ?_, ?_, ?_, ?_⟩
  · cases hprev : dictGet st.last_cc_vals ccId with
    | none => simp [DevState.cc_send, hprev]
    | some prev =>
      by_cases hd : DEADBAND_CC ≤ ((val : Int) - (prev : Int)).natAbs
      · simp only [DevState.cc_send, hprev, hd, if_true]
        constructor
        · exact fun _ => Or.inr ⟨prev, rfl, hd⟩
        · simp
      · simp only [DevState.cc_send, hprev, hd, if_false]
        constructor
        · simp
        · rintro (h | ⟨prev2, hp2, hd2⟩)
          · exact absurd h (by simp)
          · rw [Option.some_inj.mp hp2] at hd
            exact absurd hd2 hd
  · intro hne
    cases hprev : dictGet st.last_cc_vals ccId with
    | none =>
      simp only [DevState.cc_send, hprev]
      exact ⟨by trivial, dictGet_dictSet_self _ _ _⟩
    | some prev =>
      by_cases hd : DEADBAND_CC ≤ ((val : Int) - (prev : Int)).natAbs
      · simp only [DevState.cc_send, hprev, hd, if_true]
        exact ⟨by trivial, dictGet_dictSet_self _ _ _⟩
      · exact absurd (by simp [DevState.cc_send, hprev, hd]) hne
  · intro hempty
    cases hprev : dictGet st.last_cc_vals ccId with
    | none => exact absurd hempty (by simp [DevState.cc_send, hprev])
    | some prev =>
      by_cases hd : DEADBAND_CC ≤ ((val : Int) - (prev : Int)).natAbs
      · exact absurd hempty (by simp [DevState.cc_send, hprev, hd])
      · simp [DevState.cc_send, hprev, hd]
  · intro h
    simp only [vol_ev]
    rw [if_pos h]
  · intro h hcc
    simp [eff_ev, h, hcc]

/-- Witness for C4 at concrete inputs: a fresh table emits, the Volume
path with hold on routes through the filter at id 11, the Effect path
routes CUT through the filter at id 74. -/
theorem C4_deadband_witness :
    (DevState.cc_send initState 11 5).2 ≠ [] ∧
    vol_ev { initState with vol_hold := 1 } 5
      = DevState.cc_send { initState with vol_hold := 1, last_volume := 5 } 11 5 ∧
    eff_ev { initState with vol_hold := 1 } "CUT".data 5
      = DevState.cc_send { initState with vol_hold := 1 } 74 5 := by
  refine ⟨(C4_deadband initState 11 5 "CUT".data 74).1.mpr (Or.inl (by decide)), ?_, ?_⟩
  · exact (C4_deadband { initState with vol_hold := 1 } 11 5 "CUT".data 74).2.2.2.1 (by decide)
  · exact (C4_deadband { initState with vol_hold := 1 } 74 5 "CUT".data 74).2.2.2.2
      (by decide) (by decide)

/-- Claim C8: a Volume event always records `lastVolume` and emits on
expression id 11 through the deadband filter iff `volumeHold = 1`; an
Effect event with `volumeHold = 0` is accepted but emits nothing and
changes nothing, and with `volumeHold = 1` it emits on the controller id
from the fixed table (CUT 74, RESO 71, PAN 10, REV 91, DEL 94, MOD 1)
through the deadband filter. -/
theorem C8_volume_effect (st : DevState) (val : Nat) (p : List Char) :
    ((vol_ev st val).1.last_volume = val) ∧
    (st.vol_hold ≠ 1 → vol_ev st val = ({ st with last_volume := val }, [])) ∧
    (st.vol_hold = 1 →
      vol_ev st val = DevState.cc_send { st with last_volume := val } 11 val) ∧
    (st.vol_hold = 0 → eff_ev st p val = (st, [])) ∧
    (st.vol_hold = 1 → ∀ c, CC_MAP p = some c → eff_ev st p val = st.cc_send c val) ∧
    CC_MAP "CUT".data = some 74 ∧ CC_MAP "RESO".data = some 71 ∧
    CC_MAP "PAN".data = some 10 ∧ CC_MAP "REV".data = some 91 ∧
    CC_MAP "DEL".data = some 94 ∧ CC_MAP "MOD".data = some 1 := by
  refine ⟨?_, ?_, ?_, ?_, ?_, by decide, by decide, by decide, by decide, by decide, by decide⟩
  · simp only [vol_ev]
    by_cases h : st.vol_hold = 1
    · rw [if_pos h]
      obtain ⟨t, ht⟩ := cc_send_frame { st with last_volume := val } 11 val
      rw [ht]
    · rw [if_neg h]
  · intro h
    simp only [vol_ev]
    rw [if_neg h]
  · intro h
    simp only [vol_ev]
    rw [if_pos h]
  · intro h
    simp [eff_ev, h]
  · intro h c hcc
    simp [eff_ev, h, hcc]

/-- Witness for C8 at concrete inputs: hold off records volume silently
and lets an Effect through with no output; hold on routes REV to
controller 91. -/
theorem C8_volume_effect_witness :
    vol_ev initState 33 = ({ initState with last_volume := 33 }, []) ∧
    eff_ev initState "REV".data 40 = (initState, []) ∧
    eff_ev { initState with vol_hold := 1 } "REV".data 40
      = DevState.cc_send { initState with vol_hold := 1 } 91 40 := by
  refine ⟨(C8_volume_effect initState 33 "REV".data).2.1 (by decide),
    (C8_volume_effect initState 40 "REV".data).2.2.2.1 (by decide),
    (C8_volume_effect { initState with vol_hold := 1 } 40 "REV".data).2.2.2.2.1
      (by decide) 91 (by decide)⟩

/-! ## Resolver lemmas -/

theorem digitCh_not_noteLetter {c : Char} (h : digitCh c = true) : noteLetterCh c = false := by
  simp only [digitCh, Bool.and_eq_true, decide_eq_true_eq] at h
  have : ¬ noteLetterCh c = true := by
    simp only [noteLetterCh, Bool.or_eq_true, Bool.and_eq_true, decide_eq_true_eq]
    omega
  exact Bool.eq_false_iff.mpr this

theorem parseDigits_of_digits {ds : List Char} (h1 : ds ≠ []) (h2 : ds.all digitCh = true) :
    parseDigits ds = some (digitsVal ds) := by
  cases ds with
  | nil => exact absurd rfl h1
  | cons c rest =>
    simp only [parseDigits, List.isEmpty_cons, Bool.not_false, Bool.true_and, h2, if_true]

theorem pyInt_digits {ds : List Char} (h1 : ds ≠ []) (h2 : ds.all digitCh = true) :
    pyInt ds = some ((digitsVal ds : Int)) := by
  cases ds with
  | nil => exact absurd rfl h1
  | cons c rest =>
    have hc : digitCh c = true := by
      simp only [List.all_cons, Bool.and_eq_true] at h2
      exact h2.1
    have hminus : ¬ c = '-' := by
      rintro rfl
      simp [digitCh] at hc
    have hplus : ¬ c = '+' := by
      rintro rfl
      simp [digitCh] at hc
    simp [pyInt, hminus, hplus, parseDigits_of_digits (List.cons_ne_nil c rest) h2]

theorem clamp0_127_coe (n : Nat) : clamp0_127 (n : Int) = min 127 n := by
  unfold clamp0_127
  omega

theorem clamp0_127_nonpos {n : Int} (h : n ≤ 0) : clamp0_127 n = 0 := by
  unfold clamp0_127
  omega

/-! ## Grammar-to-parser agreement lemmas -/

theorem isDigits1_parseDigits {cs : List Char} (h : isDigits1 cs = true) :
    (parseDigits cs).isSome := by
  unfold isDigits1 at h
  simp only [parseDigits, h, if_true, Option.isSome_some]

theorem isSignDigits_parseSignedInt {cs : List Char} (h : isSignDigits cs = true) :
    (parseSignedInt cs).isSome := by
  cases cs with
  | nil => simp [isSignDigits] at h
  | cons c rest =>
    simp only [isSignDigits] at h
    simp only [parseSignedInt]
    by_cases hc : c = '-'
    · simp only [hc, if_true] at h ⊢
      obtain ⟨n, hn⟩ := Option.isSome_iff_exists.mp (isDigits1_parseDigits h)
      simp [hn]
    · simp only [hc, if_false] at h ⊢
      obtain ⟨n, hn⟩ := Option.isSome_iff_exists.mp (isDigits1_parseDigits h)
      simp [hn]

theorem isAccOct_parseAccOct {cs : List Char} (h : isAccOct cs = true) :
    (parseAccOct cs).isSome := by
  cases cs with
  | nil => simp [isAccOct] at h
  | cons c rest =>
    simp only [isAccOct] at h
    simp only [parseAccOct]
    by_cases h1 : c = '#'
    · simp only [h1, if_true] at h ⊢
      obtain ⟨n, hn⟩ := Option.isSome_iff_exists.mp (isSignDigits_parseSignedInt h)
      simp [hn]
    · by_cases h2 : c = 'b'
      · simp only [h1, h2, if_false, if_true] at h ⊢
        obtain ⟨n, hn⟩ := Option.isSome_iff_exists.mp (isSignDigits_parseSignedInt h)
        simp [hn]
      · simp only [h1, h2, if_false] at h ⊢
        obtain ⟨n, hn⟩ := Option.isSome_iff_exists.mp (isSignDigits_parseSignedInt h)
        simp [hn]

theorem isNoteName_parseNoteName {cs : List Char} (h : isNoteName cs = true) :
    (parseNoteName cs).isSome := by
  cases cs with
  | nil => simp [isNoteName] at h
  | cons c rest =>
    simp only [isNoteName, Bool.and_eq_true] at h
    obtain ⟨p, hp⟩ := Option.isSome_iff_exists.mp (isAccOct_parseAccOct h.2)
    obtain ⟨a, o⟩ := p
    simp [parseNoteName, h.1, hp]

theorem isDigits12_all {cs : List Char} (h : isDigits12 cs = true) :
    cs ≠ [] ∧ cs.all digitCh = true := by
  simp only [isDigits12, Bool.and_eq_true, Bool.or_eq_true, decide_eq_true_eq] at h
  refine ⟨?_, h.2⟩
  intro hnil
  rw [hnil] at h
  simp at h

theorem isNum127_digits {cs : List Char} (h : isNum127 cs = true) :
    cs ≠ [] ∧ cs.all digitCh = true := by
  rcases cs with _ | ⟨a, _ | ⟨b, _ | ⟨c, _ | ⟨d, tl⟩⟩⟩⟩
  · simp [isNum127, isDigits12] at h
  · exact isDigits12_all (by simpa [isNum127] using h)
  · exact isDigits12_all (by simpa [isNum127] using h)
  · refine ⟨by simp, ?_⟩
    have h2 : (a = '1' ∧ b = '2' ∧ 48 ≤ c.toNat ∧ c.toNat ≤ 55) ∨
        (a = '1' ∧ (b = '0' ∨ b = '1') ∧ digitCh c = true) ∨
        isDigits12 [a, b, c] = true := by
      simpa [isNum127, and_assoc, or_assoc] using h
    rcases h2 with ⟨rfl, rfl, hc1, hc2⟩ | ⟨rfl, hb, hc⟩ | h2
    · simp only [List.all_cons, List.all_nil, Bool.and_eq_true]
      refine ⟨by decide, by decide, ?_, by decide⟩
      simp only [digitCh, Bool.and_eq_true, decide_eq_true_eq]
      omega
    · simp only [List.all_cons, List.all_nil, Bool.and_eq_true]
      rcases hb with rfl | rfl <;> exact ⟨by decide, by decide, hc, by decide⟩
    · exact (isDigits12_all h2).2
  · exfalso
    simp [isNum127, isDigits12] at h

/-! ## Claim theorems for the resolver -/

/-- Claim C5: the resolver computes `12*(octave+1)` plus the semitone
class of the (upper-cased) letter, adjusted +1 for sharp and −1 for flat,
clamped to 0..127; the four named examples hold; and every integer token
(digits, optionally preceded by a minus sign) resolves to its value
clamped to [0,127]. -/
theorem C5_resolver :
    (∀ cs l a o, parseNoteName cs = some (l, a, o) →
      note_name_to_number cs
        = clamp0_127 (12 * (o + 1) + NOTE_BASE l.toUpper +
            (if a = some '#' then 1 else if a = some 'b' then -1 else 0))) ∧
    note_name_to_number "C4".data = 60 ∧
    note_name_to_number "C-1".data = 0 ∧
    note_name_to_number "C#4".data = 61 ∧
    note_name_to_number "Db4".data = 61 ∧
    (∀ ds, ds ≠ [] → ds.all digitCh = true →
      note_name_to_number ds = min 127 (digitsVal ds)) ∧
    (∀ ds, ds ≠ [] → ds.all digitCh = true →
      note_name_to_number ('-' :: ds) = 0) := by
  refine ⟨?_, by decide, by decide, by decide, by decide, ?_, ?_⟩
  · intro cs l a o h
    simp only [note_name_to_number, noteResolveOpt, h, Option.getD_some]
    congr 1
    ring
  · intro ds h1 h2
    cases ds with
    | nil => exact absurd rfl h1
    | cons c rest =>
      have hc : digitCh c = true := by
        simp only [List.all_cons, Bool.and_eq_true] at h2
        exact h2.1
      have hpn : parseNoteName (c :: rest) = none := by
        simp [parseNoteName, digitCh_not_noteLetter hc]
      simp [note_name_to_number, noteResolveOpt, hpn, pyInt_digits h1 h2, clamp0_127_coe]
  · intro ds h1 h2
    have hpn : parseNoteName ('-' :: ds) = none := by
      simp [parseNoteName, noteLetterCh]
    have hpy : pyInt ('-' :: ds) = some (-(digitsVal ds : Int)) := by
      simp [pyInt, parseDigits_of_digits h1 h2]
    simp [note_name_to_number, noteResolveOpt, hpn, hpy,
      clamp0_127_nonpos (by omega : -(digitsVal ds : Int) ≤ 0)]

/-- Witness for C5: the name formula at `C#4`, the digit-token clause at
`60`, and the signed-token clause at `-5`. -/
theorem C5_resolver_witness :
    note_name_to_number "C#4".data
      = clamp0_127 (12 * ((4 : Int) + 1) + NOTE_BASE 'C'.toUpper +
          (if (some '#' : Option Char) = some '#' then 1
           else if (some '#' : Option Char) = some 'b' then -1 else 0)) ∧
    note_name_to_number "60".data = min 127 (digitsVal "60".data) ∧
    note_name_to_number ('-' :: "5".data) = 0 :=
  ⟨C5_resolver.1 "C#4".data 'C' (some '#') 4 (by decide),
    C5_resolver.2.2.2.2.2.1 "60".data (by decide) (by decide),
    C5_resolver.2.2.2.2.2.2 "5".data (by decide) (by decide)⟩

/-- Claim C9: for every token accepted by the grammar's `NOTE_ANY` shape
(note name or 0..127 number), the resolver succeeds on the name branch or
the integer branch, so the defensive `return 60` fallback is never
taken. -/
theorem C9_no_fallback (cs : List Char) (h : isNoteTok cs = true) :
    (noteResolveOpt cs).isSome = true := by
  simp only [isNoteTok, Bool.or_eq_true] at h
  rcases h with h | h
  · obtain ⟨p, hp⟩ := Option.isSome_iff_exists.mp (isNoteName_parseNoteName h)
    obtain ⟨l, a, o⟩ := p
    simp [noteResolveOpt, hp]
  · obtain ⟨h1, h2⟩ := isNum127_digits h
    cases hp : parseNoteName cs with
    | some v =>
      obtain ⟨l, a, o⟩ := v
      simp [noteResolveOpt, hp]
    | none => simp [noteResolveOpt, hp, pyInt_digits h1 h2]

/-- Witness for C9: a name token and a numeric token both resolve. -/
theorem C9_no_fallback_witness :
    (noteResolveOpt "C4".data).isSome = true ∧ (noteResolveOpt "60".data).isSome = true :=
  ⟨C9_no_fallback "C4".data (by decide), C9_no_fallback "60".data (by decide)⟩

/-! ## Classifier and dispatch lemmas -/

theorem handle_button_isSome (g : Devices) (l : List Char) :
    (handle_button g l).isSome =
      ((m_B_NH (splitCommas l)).isSome || (m_B_VH (splitCommas l)).isSome ||
        (m_B_SUS (splitCommas l)).isSome || (m_B_OCT (splitCommas l)).isSome ||
        (m_B_PAN (splitCommas l)).isSome) := by
  unfold handle_button
  cases h1 : m_B_NH (splitCommas l) with
  | some p =>
    obtain ⟨dev, s⟩ := p
    simp [h1]
  | none =>
    cases h2 : m_B_VH (splitCommas l) with
    | some p =>
      obtain ⟨dev, s⟩ := p
      simp [h1, h2]
    | none =>
      cases h3 : m_B_SUS (splitCommas l) with
      | some p =>
        obtain ⟨dev, s⟩ := p
        simp [h1, h2, h3]
      | none =>
        cases h4 : m_B_OCT (splitCommas l) with
        | some p =>
          obtain ⟨dev, d⟩ := p
          simp [h1, h2, h3, h4]
        | none =>
          cases h5 : m_B_PAN (splitCommas l) with
          | some dev => simp [h1, h2, h3, h4, h5]
          | none => simp [h1, h2, h3, h4, h5]

theorem handle_pitch_isSome (g : Devices) (l : List Char) :
    (handle_pitch g l).isSome = (m_P (splitCommas l)).isSome := by
  unfold handle_pitch
  cases h : m_P (splitCommas l) with
  | some p =>
    obtain ⟨dev, tok⟩ := p
    simp [h]
  | none => simp [h]

theorem handle_volume_isSome (g : Devices) (l : List Char) :
    (handle_volume g l).isSome = (m_V (splitCommas l)).isSome := by
  unfold handle_volume
  cases h : m_V (splitCommas l) with
  | some p =>
    obtain ⟨dev, v⟩ := p
    simp [h]
  | none => simp [h]

theorem handle_effect_isSome (g : Devices) (l : List Char) :
    (handle_effect g l).isSome = (m_E (splitCommas l)).isSome := by
  unfold handle_effect
  cases h : m_E (splitCommas l) with
  | some p =>
    obtain ⟨dev, pa, v⟩ := p
    simp [h]
  | none => simp [h]

/-! Pairwise exclusivity: a match for a pattern forces every earlier
pattern of the `ALL` order to fail, via the distinct literal tags and
arities. -/

theorem mVH_excl {toks : List (List Char)} {r : Nat × Nat} (h : m_B_VH toks = some r) :
    m_B_NH toks = none := by
  rcases toks with _ | ⟨t0, _ | ⟨t1, _ | ⟨t2, _ | ⟨t3, _ | ⟨t4, tl⟩⟩⟩⟩⟩ <;>
    simp only [m_B_VH, Option.ite_none_right_eq_some, Option.some.injEq, reduceCtorEq] at h
  obtain ⟨⟨hB, hT, hrest⟩, hr⟩ := h
  subst hT
  simp [m_B_NH, show ¬("VH".data = "NH".data) from by decide]

theorem mSUS_excl {toks : List (List Char)} {r : Nat × Nat} (h : m_B_SUS toks = some r) :
    m_B_NH toks = none ∧ m_B_VH toks = none := by
  rcases toks with _ | ⟨t0, _ | ⟨t1, _ | ⟨t2, _ | ⟨t3, _ | ⟨t4, tl⟩⟩⟩⟩⟩ <;>
    simp only [m_B_SUS, Option.ite_none_right_eq_some, Option.some.injEq, reduceCtorEq] at h
  obtain ⟨⟨hB, hT, hrest⟩, hr⟩ := h
  subst hT
  constructor
  · simp [m_B_NH, show ¬("SUS".data = "NH".data) from by decide]
  · simp [m_B_VH, show ¬("SUS".data = "VH".data) from by decide]

theorem mOCT_excl {toks : List (List Char)} {r : Nat × Int} (h : m_B_OCT toks = some r) :
    m_B_NH toks = none ∧ m_B_VH toks = none ∧ m_B_SUS toks = none := by
  rcases toks with _ | ⟨t0, _ | ⟨t1, _ | ⟨t2, _ | ⟨t3, _ | ⟨t4, tl⟩⟩⟩⟩⟩ <;>
    simp only [m_B_OCT, Option.ite_none_right_eq_some, Option.some.injEq, reduceCtorEq] at h
  obtain ⟨⟨hB, hT, hrest⟩, hr⟩ := h
  subst hT
  refine ⟨?_, ?_, ?_⟩
  · simp [m_B_NH, show ¬("OCT".data = "NH".data) from by decide]
  · simp [m_B_VH, show ¬("OCT".data = "VH".data) from by decide]
  · simp [m_B_SUS, show ¬("OCT".data = "SUS".data) from by decide]

theorem mPAN_excl {toks : List (List Char)} {r : Nat} (h : m_B_PAN toks = some r) :
    m_B_NH toks = none ∧ m_B_VH toks = none ∧ m_B_SUS toks = none ∧
      m_B_OCT toks = none := by
  rcases toks with _ | ⟨t0, _ | ⟨t1, _ | ⟨t2, _ | ⟨t3, _ | ⟨t4, tl⟩⟩⟩⟩⟩ <;>
    simp only [m_B_PAN, Option.ite_none_right_eq_some, Option.some.injEq, reduceCtorEq] at h
  obtain ⟨⟨hB, hT, hrest⟩, hr⟩ := h
  subst hT
  refine ⟨?_, ?_, ?_, ?_⟩
  · simp [m_B_NH, show ¬("PANIC".data = "NH".data) from by decide]
  · simp [m_B_VH, show ¬("PANIC".data = "VH".data) from by decide]
  · simp [m_B_SUS, show ¬("PANIC".data = "SUS".data) from by decide]
  · simp [m_B_OCT, show ¬("PANIC".data = "OCT".data) from by decide]

theorem mP_excl {toks : List (List Char)} {r : Nat × List Char} (h : m_P toks = some r) :
    m_B_NH toks = none ∧ m_B_VH toks = none ∧ m_B_SUS toks = none ∧
      m_B_OCT toks = none ∧ m_B_PAN toks = none := by
  rcases toks with _ | ⟨t0, _ | ⟨t1, _ | ⟨t2, _ | ⟨t3, _ | ⟨t4, tl⟩⟩⟩⟩⟩ <;>
    simp only [m_P, Option.ite_none_right_eq_some, Option.some.injEq, reduceCtorEq] at h
  exact ⟨rfl, rfl, rfl, rfl, rfl⟩

theorem mV_excl {toks : List (List Char)} {r : Nat × Nat} (h : m_V toks = some r) :
    m_B_NH toks = none ∧ m_B_VH toks = none ∧ m_B_SUS toks = none ∧
      m_B_OCT toks = none ∧ m_B_PAN toks = none ∧ m_P toks = none := by
  rcases toks with _ | ⟨t0, _ | ⟨t1, _ | ⟨t2, _ | ⟨t3, _ | ⟨t4, tl⟩⟩⟩⟩⟩ <;>
    simp only [m_V, Option.ite_none_right_eq_some, Option.some.injEq, reduceCtorEq] at h
  obtain ⟨⟨hV, hrest⟩, hr⟩ := h
  subst hV
  refine ⟨rfl, rfl, rfl, rfl, rfl, ?_⟩
  simp [m_P, show ¬("V".data = "P".data) from by decide]

theorem mE_excl {toks : List (List Char)} {r : Nat × List Char × Nat}
    (h : m_E toks = some r) :
    m_B_NH toks = none ∧ m_B_VH toks = none ∧ m_B_SUS toks = none ∧
      m_B_OCT toks = none ∧ m_B_PAN toks = none ∧ m_P toks = none ∧
      m_V toks = none := by
  rcases toks with _ | ⟨t0, _ | ⟨t1, _ | ⟨t2, _ | ⟨t3, _ | ⟨t4, tl⟩⟩⟩⟩⟩ <;>
    simp only [m_E, Option.ite_none_right_eq_some, Option.some.injEq, reduceCtorEq] at h
  obtain ⟨⟨hE, hrest⟩, hr⟩ := h
  subst hE
  have hB : ¬("E".data = "B".data) := by decide
  refine ⟨?_, ?_, ?_, ?_, ?_, rfl, rfl⟩ <;>
    simp [m_B_NH, m_B_VH, m_B_SUS, m_B_OCT, m_B_PAN, hB]

/-- Any matching pattern is the one `classify` reports: the first-match
scan cannot be preempted, because a match forces all earlier patterns to
fail. -/
theorem classify_of_kindMatcher {l : List Char} {k : Kind}
    (h : kindMatcher k (splitCommas l) = true) : classify l = some k := by
  cases k with
  | B_NH =>
    simp only [kindMatcher] at h
    simp [classify, h]
  | B_VH =>
    simp only [kindMatcher] at h
    obtain ⟨r, hr⟩ := Option.isSome_iff_exists.mp h
    have h1 := mVH_excl hr
    simp [classify, h, h1]
  | B_SUS =>
    simp only [kindMatcher] at h
    obtain ⟨r, hr⟩ := Option.isSome_iff_exists.mp h
    obtain ⟨h1, h2⟩ := mSUS_excl hr
    simp [classify, h, h1, h2]
  | B_OCT =>
    simp only [kindMatcher] at h
    obtain ⟨r, hr⟩ := Option.isSome_iff_exists.mp h
    obtain ⟨h1, h2, h3⟩ := mOCT_excl hr
    simp [classify, h, h1, h2, h3]
  | B_PAN =>
    simp only [kindMatcher] at h
    obtain ⟨r, hr⟩ := Option.isSome_iff_exists.mp h
    obtain ⟨h1, h2, h3, h4⟩ := mPAN_excl hr
    simp [classify, h, h1, h2, h3, h4]
  | P =>
    simp only [kindMatcher] at h
    obtain ⟨r, hr⟩ := Option.isSome_iff_exists.mp h
    obtain ⟨h1, h2, h3, h4, h5⟩ := mP_excl hr
    simp [classify, h, h1, h2, h3, h4, h5]
  | V =>
    simp only [kindMatcher] at h
    obtain ⟨r, hr⟩ := Option.isSome_iff_exists.mp h
    obtain ⟨h1, h2, h3, h4, h5, h6⟩ := mV_excl hr
    simp [classify, h, h1, h2, h3, h4, h5, h6]
  | E =>
    simp only [kindMatcher] at h
    obtain ⟨r, hr⟩ := Option.isSome_iff_exists.mp h
    obtain ⟨h1, h2, h3, h4, h5, h6, h7⟩ := mE_excl hr
    simp [classify, h, h1, h2, h3, h4, h5, h6, h7]

/-- Claim C10: the standalone classifier of `src/regex.py` agrees with
the bridge's handler dispatch — it returns a kind iff some handler
accepts the line, the kind it returns is accepted by the corresponding
handler, any matching pattern is the reported classification, and no two
distinct patterns match the same line (classification is unambiguous). -/
theorem C10_classify_dispatch (g : Devices) (l : List Char) :
    ((classify l).isSome = true ↔
      ((handle_button g l).isSome || (handle_pitch g l).isSome ||
        (handle_volume g l).isSome || (handle_effect g l).isSome) = true) ∧
    (∀ k, classify l = some k → (handlerOf k g l).isSome = true) ∧
    (∀ k, kindMatcher k (splitCommas l) = true → classify l = some k) ∧
    (∀ k1 k2, kindMatcher k1 (splitCommas l) = true →
      kindMatcher k2 (splitCommas l) = true → k1 = k2) := by
  refine ⟨?_, ?_, fun k h => classify_of_kindMatcher h,
    fun k1 k2 h1 h2 => Option.some.inj
      ((classify_of_kindMatcher h1).symm.trans (classify_of_kindMatcher h2))⟩
  · rw [handle_button_isSome, handle_pitch_isSome, handle_volume_isSome,
      handle_effect_isSome]
    simp only [classify]
    split_ifs <;> simp_all
  · intro k hk
    simp only [classify] at hk
    split_ifs at hk <;> cases hk <;>
      simp_all [handlerOf, handle_button_isSome, handle_pitch_isSome,
        handle_volume_isSome, handle_effect_isSome]

/-- Witness for C10: the line `B,1,NH,1` is classified `B_NH`, and the
button handler accepts it. -/
theorem C10_classify_dispatch_witness :
    (handlerOf Kind.B_NH [] "B,1,NH,1".data).isSome = true ∧
    classify "B,1,NH,1".data = some Kind.B_NH :=
  ⟨(C10_classify_dispatch [] "B,1,NH,1".data).2.1 Kind.B_NH (by decide),
    (C10_classify_dispatch [] "B,1,NH,1".data).2.2.1 Kind.B_NH (by decide)⟩

end Makerlab
